import Mathlib

/-!
Verification of `hbase-native-client/utils/user-util.cc`: a lazily
memoized resolver of the current OS user's login name.

The state of a `UserUtil` object is the pair of the cached name
`user_name_` and the flag `init_`; the mutex `m_` only serializes
access and has no sequential content, so the sequential semantics of
`user_name` and `compute_user_name` are functions on this state,
parametrized by a model of the OS facilities the code consumes
(`getuid`, `getpwuid`, and `geteuid` which the spec names).
-/

set_option autoImplicit false

namespace HBase

/-- Model of a C `struct passwd` record as returned by `getpwuid`. Only
the `pw_name` field is read by the code; a null `pw_name` pointer is
modelled as `none`. -/
structure Passwd where
  pw_name : Option String
  deriving Repr, DecidableEq

/-- Model of the OS facilities consumed by `compute_user_name`: the real
user id of the process (`getuid`), the effective user id (`geteuid`,
which the code does not call but the spec mentions), and the
user-database lookup `getpwuid`, which may return no record (a null
pointer, modelled as `none`). -/
structure OS where
  getuid : Nat
  geteuid : Nat
  getpwuid : Nat → Option Passwd

/-- State of a `UserUtil` object: the cached name `user_name_` and the
flag `init_`, as declared in `utils/user-util.h`. -/
structure UserUtil where
  user_name_ : String
  init_ : Bool
  deriving Repr, DecidableEq

/-- Modelled from the spec: the header `utils/user-util.h` holding the
members' initial values is not among the sources; per the spec the state
starts with an empty cached name and the flag false ("the cached name
remains empty", "created at process start"). -/
def initState : UserUtil := { user_name_ := "", init_ := false }

/-- Embedding of `UserUtil::compute_user_name` (user-util.cc lines
37-55): under the lock, return at once when `init_` is already set;
otherwise call `getpwuid(getuid())` and, only when the record and its
`pw_name` are both non-null, store the name and set `init_`. -/
def compute_user_name (os : OS) (s : UserUtil) : UserUtil :=
  if s.init_ then s
  else
    match os.getpwuid os.getuid with
    | none => s
    | some passwd =>
      match passwd.pw_name with
      | none => s
      | some nm => { user_name_ := nm, init_ := true }

/-- Instrumentation of `compute_user_name`: the list of user ids passed
to `getpwuid` during one call, following the same control flow (the
lookup runs whenever the early `init_` return is not taken). -/
def compute_queried (os : OS) (s : UserUtil) : List Nat :=
  if s.init_ then [] else [os.getuid]

/-- Embedding of `UserUtil::user_name` (user-util.cc lines 30-35): when
`init_` is not set, run `compute_user_name`, then return the member
`user_name_`. The result is the returned string paired with the state
after the call. -/
def user_name (os : OS) (s : UserUtil) : String × UserUtil :=
  let t := if !s.init_ then compute_user_name os s else s
  (t.user_name_, t)

/-- Instrumentation of `user_name`: the list of user ids passed to
`getpwuid` during one call. -/
def user_name_queried (os : OS) (s : UserUtil) : List Nat :=
  if !s.init_ then compute_queried os s else []

/-- Combined outcome of the `getpwuid(getuid())` lookup: `some name`
exactly when the returned record is non-null and its `pw_name` field is
non-null, which is the success condition `passwd && passwd->pw_name` of
the code. -/
def lookupResult (os : OS) : Option String :=
  (os.getpwuid os.getuid).bind Passwd.pw_name

/-- Results of `n` successive calls to `user_name` starting from state
`s`. -/
def callResults (os : OS) : Nat → UserUtil → List String
  | 0, _ => []
  | n + 1, s => (user_name os s).1 :: callResults os n (user_name os s).2

/-- Total number of `getpwuid` lookups performed by `n` successive calls
to `user_name` starting from state `s`. -/
def callLookupCount (os : OS) : Nat → UserUtil → Nat
  | 0, _ => 0
  | n + 1, s =>
    (user_name_queried os s).length + callLookupCount os n (user_name os s).2

/-! ### Helper lemmas -/

theorem compute_of_init (os : OS) (s : UserUtil) (h : s.init_ = true) :
    compute_user_name os s = s := by
  simp [compute_user_name, h]

theorem user_name_of_init (os : OS) (s : UserUtil) (h : s.init_ = true) :
    user_name os s = (s.user_name_, s) := by
  simp [user_name, h]

theorem compute_of_fail (os : OS) (s : UserUtil)
    (hfail : lookupResult os = none) : compute_user_name os s = s := by
  unfold lookupResult at hfail
  cases hdb : os.getpwuid os.getuid with
  | none => simp [compute_user_name, hdb]
  | some p =>
    cases hn : p.pw_name with
    | none => simp [compute_user_name, hdb, hn]
    | some nm => rw [hdb] at hfail; simp [hn] at hfail

theorem compute_of_success (os : OS) (s : UserUtil) (h : s.init_ = false)
    (nm : String) (hnm : lookupResult os = some nm) :
    compute_user_name os s = { user_name_ := nm, init_ := true } := by
  unfold lookupResult at hnm
  cases hdb : os.getpwuid os.getuid with
  | none => rw [hdb] at hnm; simp at hnm
  | some p =>
    rw [hdb] at hnm
    simp at hnm
    simp [compute_user_name, h, hdb, hnm]

theorem user_name_of_fail (os : OS) (s : UserUtil) (h : s.init_ = false)
    (hfail : lookupResult os = none) : user_name os s = (s.user_name_, s) := by
  simp [user_name, h, compute_of_fail os s hfail]

theorem user_name_of_success (os : OS) (s : UserUtil) (h : s.init_ = false)
    (nm : String) (hnm : lookupResult os = some nm) :
    user_name os s = (nm, { user_name_ := nm, init_ := true }) := by
  simp [user_name, h, compute_of_success os s h nm hnm]

theorem callLookupCount_of_init (os : OS) (n : Nat) (s : UserUtil)
    (h : s.init_ = true) : callLookupCount os n s = 0 := by
  induction n with
  | zero => rfl
  | succ k ih =>
    show (user_name_queried os s).length + callLookupCount os k (user_name os s).2 = 0
    rw [user_name_of_init os s h]
    simp [user_name_queried, h, ih]

theorem callResults_of_init (os : OS) (n : Nat) (s : UserUtil)
    (h : s.init_ = true) : callResults os n s = List.replicate n s.user_name_ := by
  induction n with
  | zero => rfl
  | succ k ih =>
    show (user_name os s).1 :: callResults os k (user_name os s).2 =
      List.replicate (k + 1) s.user_name_
    rw [user_name_of_init os s h]
    simp [ih, List.replicate_succ]

/-! ### Claim theorems -/

/-- C1, counterexample: with real uid 1000 and effective uid 0, the user
id passed to the user-database lookup by a resolving call is 1000, the
real uid, not the effective uid 0; the claim as stated is false. -/
theorem C1_effective_uid_counterexample :
    ¬ (∀ u ∈ user_name_queried ⟨1000, 0, fun _ => none⟩ initState,
        u = OS.geteuid ⟨1000, 0, fun _ => none⟩) := by
  decide

/-- C1 (amended): for every call that triggers resolution (the state is
not yet resolved), the user id passed to the user-database lookup is
exactly the process's real user id obtained from `getuid`. -/
theorem C1_queried_uid_is_real (os : OS) (s : UserUtil)
    (h : s.init_ = false) : user_name_queried os s = [os.getuid] := by
  simp [user_name_queried, compute_queried, h]

/-- Witness for C1 at a concrete input: from the initial state the
lookup is queried at the real uid 1000. -/
theorem C1_queried_uid_is_real_witness :
    user_name_queried ⟨1000, 0, fun _ => none⟩ initState = [1000] :=
  C1_queried_uid_is_real ⟨1000, 0, fun _ => none⟩ initState rfl

/-- C2: for every state, `user_name` returns the cached name and leaves
the state alone when `init_` is set, and otherwise runs the resolution
step and returns whatever name is cached afterwards. -/
theorem C2_user_name_spec (os : OS) (s : UserUtil) :
    user_name os s =
      if s.init_ then (s.user_name_, s)
      else ((compute_user_name os s).user_name_, compute_user_name os s) := by
  cases h : s.init_ with
  | false => simp [user_name, h]
  | true => simp [user_name, h]

/-- C3: from an unresolved state with empty cached name, when the OS
lookup returns no record or a record with no name, the call returns the
empty string and the state is unchanged (flag still false, cache still
empty), with no error reported (the function returns normally). -/
theorem C3_failure_state_unchanged (os : OS) (s : UserUtil)
    (h1 : s.init_ = false) (h2 : s.user_name_ = "")
    (hfail : lookupResult os = none) :
    (user_name os s).1 = "" ∧ (user_name os s).2.init_ = false ∧
    (user_name os s).2.user_name_ = "" ∧ (user_name os s).2 = s := by
  rw [user_name_of_fail os s h1 hfail]
  exact ⟨h2, h1, h2, rfl⟩

/-- Witness for C3 at a concrete input: a user database with no records
leaves the initial state untouched. -/
theorem C3_failure_state_unchanged_witness :
    (user_name ⟨1000, 1000, fun _ => none⟩ initState).1 = "" ∧
    (user_name ⟨1000, 1000, fun _ => none⟩ initState).2.init_ = false ∧
    (user_name ⟨1000, 1000, fun _ => none⟩ initState).2.user_name_ = "" ∧
    (user_name ⟨1000, 1000, fun _ => none⟩ initState).2 = initState :=
  C3_failure_state_unchanged ⟨1000, 1000, fun _ => none⟩ initState rfl rfl rfl

/-- C4: once `init_` is set, neither the resolution step nor `user_name`
changes the state; and whenever a call changes the state at all, the
state was unresolved, the lookup succeeded, and the new state is
resolved — so the state is mutated exactly once, on the first
successful resolution. -/
theorem C4_cache_immutable (os : OS) (s : UserUtil) :
    (s.init_ = true →
      compute_user_name os s = s ∧ user_name os s = (s.user_name_, s)) ∧
    ((user_name os s).2 ≠ s →
      s.init_ = false ∧ (user_name os s).2.init_ = true ∧
      lookupResult os ≠ none) := by
  constructor
  · intro h
    exact ⟨compute_of_init os s h, user_name_of_init os s h⟩
  · intro hne
    cases h : s.init_ with
    | true =>
      rw [user_name_of_init os s h] at hne
      exact absurd rfl hne
    | false =>
      cases hl : lookupResult os with
      | none =>
        rw [user_name_of_fail os s h hl] at hne
        exact absurd rfl hne
      | some nm =>
        rw [user_name_of_success os s h nm hl]
        exact ⟨rfl, rfl, by simp [hl]⟩

/-- Witness for C4 at a concrete input: a resolved state is left exactly
as it is by the resolution step. -/
theorem C4_cache_immutable_witness :
    compute_user_name ⟨1, 1, fun _ => none⟩ ⟨"alice", true⟩ =
      ⟨"alice", true⟩ :=
  ((C4_cache_immutable ⟨1, 1, fun _ => none⟩ ⟨"alice", true⟩).1 rfl).1

/-- C5: after a call of `user_name` whose resolution succeeded (the
state it leaves behind is resolved), no number of further calls performs
any OS lookup. -/
theorem C5_no_lookup_after_success (os : OS) (s : UserUtil) (n : Nat)
    (h : (user_name os s).2.init_ = true) :
    callLookupCount os n (user_name os s).2 = 0 :=
  callLookupCount_of_init os n _ h

/-- Witness for C5 at a concrete input: after a first successful call,
three further calls perform zero lookups. -/
theorem C5_no_lookup_after_success_witness :
    callLookupCount ⟨1000, 1000, fun _ => some ⟨some "alice"⟩⟩ 3
      (user_name ⟨1000, 1000, fun _ => some ⟨some "alice"⟩⟩ initState).2 = 0 :=
  C5_no_lookup_after_success ⟨1000, 1000, fun _ => some ⟨some "alice"⟩⟩
    initState 3 rfl

/-- C6: a call from an unresolved state always performs the OS lookup
(exactly one query), and when the lookup can never succeed, `n` calls
perform `n` lookups: a failed attempt is never cached as a permanent
failure. -/
theorem C6_retry_while_unresolved (os : OS) (s : UserUtil) (n : Nat)
    (h : s.init_ = false) :
    (user_name_queried os s).length = 1 ∧
    (lookupResult os = none → callLookupCount os n s = n) := by
  constructor
  · simp [user_name_queried, compute_queried, h]
  · intro hfail
    induction n with
    | zero => rfl
    | succ k ih =>
      show (user_name_queried os s).length +
        callLookupCount os k (user_name os s).2 = k + 1
      rw [user_name_of_fail os s h hfail]
      simp [user_name_queried, compute_queried, h, ih]
      omega

/-- Witness for C6 at a concrete input: against an empty user database,
two calls from the initial state perform two lookups. -/
theorem C6_retry_while_unresolved_witness :
    callLookupCount ⟨7, 7, fun _ => none⟩ 2 initState = 2 :=
  (C6_retry_while_unresolved ⟨7, 7, fun _ => none⟩ initState 2 rfl).2 rfl

/-- C7: for every state, calling `user_name` twice in sequence returns
the same string both times. -/
theorem C7_two_calls_agree (os : OS) (s : UserUtil) :
    (user_name os (user_name os s).2).1 = (user_name os s).1 := by
  cases h : s.init_ with
  | true => rw [user_name_of_init os s h, user_name_of_init os s h]
  | false =>
    cases hl : lookupResult os with
    | none =>
      rw [user_name_of_fail os s h hl, user_name_of_fail os s h hl]
    | some nm =>
      rw [user_name_of_success os s h nm hl]
      simp [user_name_of_init]

/-- C8: when the OS lookup can never succeed, every one of `n` repeated
calls to `user_name` from the initial state returns the empty string. -/
theorem C8_always_empty_on_failure (os : OS) (n : Nat)
    (hfail : lookupResult os = none) :
    callResults os n initState = List.replicate n "" := by
  induction n with
  | zero => rfl
  | succ k ih =>
    show (user_name os initState).1 ::
      callResults os k (user_name os initState).2 = List.replicate (k + 1) ""
    rw [user_name_of_fail os initState rfl hfail]
    show initState.user_name_ :: callResults os k initState =
      List.replicate (k + 1) ""
    rw [ih]
    rfl

/-- Witness for C8 at a concrete input: three calls against an empty
user database each return the empty string. -/
theorem C8_always_empty_on_failure_witness :
    callResults ⟨5, 5, fun _ => none⟩ 3 initState = List.replicate 3 "" :=
  C8_always_empty_on_failure ⟨5, 5, fun _ => none⟩ 3 rfl

/-- C10: a resolving call succeeds exactly when the lookup returns a
non-null record with a non-null name field; in particular a record whose
name is the empty string is cached as a success, so every later call
returns the empty string and performs no further lookup. -/
theorem C10_empty_name_is_success (os : OS) (s : UserUtil) (n : Nat)
    (h : s.init_ = false) :
    ((compute_user_name os s).init_ = true ↔ lookupResult os ≠ none) ∧
    (lookupResult os = some "" →
      (compute_user_name os s).init_ = true ∧
      (compute_user_name os s).user_name_ = "" ∧
      callResults os n (compute_user_name os s) = List.replicate n "" ∧
      callLookupCount os n (compute_user_name os s) = 0) := by
  constructor
  · cases hl : lookupResult os with
    | none => simp [compute_of_fail os s hl, h]
    | some nm => simp [compute_of_success os s h nm hl]
  · intro hl
    rw [compute_of_success os s h "" hl]
    refine ⟨rfl, rfl, ?_, ?_⟩
    · exact callResults_of_init os n _ rfl
    · exact callLookupCount_of_init os n _ rfl

/-- Witness for C10 at a concrete input: a user database whose single
record carries the empty name makes resolution succeed, cache the empty
string, and stop looking up. -/
theorem C10_empty_name_is_success_witness :
    (compute_user_name ⟨2, 2, fun _ => some ⟨some ""⟩⟩ initState).init_ = true ∧
    (compute_user_name ⟨2, 2, fun _ => some ⟨some ""⟩⟩ initState).user_name_ = "" ∧
    callResults ⟨2, 2, fun _ => some ⟨some ""⟩⟩ 2
      (compute_user_name ⟨2, 2, fun _ => some ⟨some ""⟩⟩ initState) =
      List.replicate 2 "" ∧
    callLookupCount ⟨2, 2, fun _ => some ⟨some ""⟩⟩ 2
      (compute_user_name ⟨2, 2, fun _ => some ⟨some ""⟩⟩ initState) = 0 :=
  (C10_empty_name_is_success ⟨2, 2, fun _ => some ⟨some ""⟩⟩ initState 2 rfl).2 rfl

end HBase
